import Mathlib

/-!
Verification of the similarity-retrieval core of the movie CBR prototype
(`main.py`, `teste_aula.py`).

Modelling conventions (shallow embedding):
* Python runtime values reaching the similarity core are modelled by `Value`:
  `None`, numbers, strings, and lists of items (a list element may be a string
  or a number).  Python `int`/`float` are both modelled by `ℚ`: all arithmetic
  performed by the core (subtraction, absolute value, division by nonzero
  constants, comparison) is exact, so `ℚ` is a faithful model except for
  float rounding, which no claim depends on.
* A Python function that can raise an exception (`TypeError`) is modelled with
  an `Option` result; `Option.none` means the call raises.
* Python `dict` attribute access is modelled by `Option Value` fields: `none`
  means the key is absent, `some Value.vnone` means the key is present with
  value `None` (this distinction matters: the source checks both
  `'k' in d` and `d.get('k') is not None`).
* String operations are re-implemented structurally over `Char` lists so that
  concrete evaluation works in the kernel; they agree with Python's
  `str.strip`, `str.upper` (ASCII) and `str.replace(" ", "-")` on the relevant
  inputs.
-/

/-- A Python value element that can live inside one of the source's lists:
a string or a number (`main.py` builds such lists with
`parse_comma_separated_string`, so in practice they hold strings). -/
inductive Item where
  | str (s : String)
  | num (q : ℚ)
deriving DecidableEq

/-- A Python value reaching the similarity core of `main.py`/`teste_aula.py`. -/
inductive Value where
  | vnone
  | vnum (q : ℚ)
  | vstr (s : String)
  | vlist (l : List Item)
deriving DecidableEq

/-- Python `==` between two `Value`s (numbers compare by numeric value,
strings by content, lists element-wise, anything cross-kind is `False`). -/
def pyEq : Value → Value → Bool
  | Value.vnone, Value.vnone => true
  | Value.vnum a, Value.vnum b => a == b
  | Value.vstr a, Value.vstr b => a == b
  | Value.vlist a, Value.vlist b => a == b
  | _, _ => false

/-- Python subtraction on two values: defined on numbers, raises a
`TypeError` (modelled by `Option.none`) otherwise. -/
def pySub : Value → Value → Option ℚ
  | Value.vnum a, Value.vnum b => some (a - b)
  | _, _ => Option.none

/-- ASCII upper-casing of one character (Python `str.upper` restricted to
ASCII, which covers every rating string in the source). -/
def pyUpperChar (c : Char) : Char :=
  if 97 ≤ c.toNat ∧ c.toNat ≤ 122 then Char.ofNat (c.toNat - 32) else c

/-- Python `s.upper()` (ASCII). -/
def pyUpper (s : String) : String := ⟨s.data.map pyUpperChar⟩

/-- Python `s.replace(" ", "-")`: every space character becomes a hyphen. -/
def pyReplaceSpace (s : String) : String :=
  ⟨s.data.map (fun c => if c = ' ' then '-' else c)⟩

/-- Python `s.strip()`: drop leading and trailing whitespace. -/
def pyStrip (s : String) : String :=
  ⟨((s.data.dropWhile Char.isWhitespace).reverse.dropWhile Char.isWhitespace).reverse⟩

/-- Python `str(v)` as used by the ordinal metric.  For the values the
source actually feeds it (strings and `None`) it is exact; numbers use the
`ℚ` printer (the difference to Python's float printing is irrelevant here)
and lists get a fixed placeholder rendering. -/
def pyStr : Value → String
  | Value.vnone => "None"
  | Value.vstr s => s
  | Value.vnum q => toString q
  | Value.vlist l => toString (l.length)

/-- `main.py` line 364-367: coerce a non-list argument of
`similaridade_jaccard` to a list (`None` becomes `[]`, a bare scalar becomes
a one-element list). -/
def pyAsList : Value → List Item
  | Value.vlist l => l
  | Value.vnone => []
  | Value.vstr s => [Item.str s]
  | Value.vnum q => [Item.num q]

/-- `main.py` line 370-371: the comprehension filter
`item for item in lista if item and str(item).strip()` — keep an item iff it
is truthy and its stripped string form is non-empty.  Note the kept item is
the ORIGINAL item, not its stripped form. -/
def itemKeep : Item → Bool
  | Item.str s => (s != "") && (pyStrip s != "")
  | Item.num q => q != 0

/-- `main.py` `similaridade_categorica_simples` (line 357-359). -/
def similaridade_categorica_simples (val1 val2 : Value) : ℚ :=
  if pyEq val1 val2 then 1 else 0

/-- `main.py` line 370-371: the `set(...)` built from one Jaccard argument
after coercion to a list and the validity filter. -/
def jaccard_set (lista : Value) : Finset Item :=
  ((pyAsList lista).filter itemKeep).toFinset

/-- `main.py` `similaridade_jaccard` (line 361-380). -/
def similaridade_jaccard (lista1 lista2 : Value) : ℚ :=
  let set1 : Finset Item := jaccard_set lista1
  let set2 : Finset Item := jaccard_set lista2
  if set1 = ∅ ∧ set2 = ∅ then 1
  else if set1 = ∅ ∨ set2 = ∅ then 0
  else
    let intersection : ℕ := (set1 ∩ set2).card
    let union : ℕ := (set1 ∪ set2).card
    if union ≠ 0 then (intersection : ℚ) / (union : ℚ) else 0

/-- `main.py` `similaridade_numerica_normalizada` (line 382-401).
`Option.none` models a raised `TypeError` (possible only when a bound is
neither a number nor `None`: the value arguments are guarded by the
`isinstance` check, the bounds are not). -/
def similaridade_numerica_normalizada (val1 val2 min_val max_val : Value) :
    Option ℚ :=
  if val1 = Value.vnone ∨ val2 = Value.vnone then some 0
  else if min_val = Value.vnone ∨ max_val = Value.vnone then
    some (if pyEq val1 val2 then 1 else 0)
  else
    (pySub max_val min_val).bind (fun max_diff =>
      if max_diff = 0 then some (if pyEq val1 val2 then 1 else 0)
      else
        match val1, val2 with
        | Value.vnum a, Value.vnum b => some (max 0 (1 - |a - b| / max_diff))
        | _, _ => some 0)

/-- `main.py` `CLASSIFICACOES_MPAA_POSSIVEIS` (line 85-109): the 27 ratings,
least to most restrictive. -/
def CLASSIFICACOES_MPAA_POSSIVEIS : List String :=
  ["Unrated", "Not Rated", "Unknown", "Approved", "Passed", "K-A", "TV-Y",
   "G", "TV-G", "GP", "M", "PG", "TV-PG", "M/PG", "TV-Y7", "TV-Y7-FV",
   "13+", "PG-13", "TV-13", "TV-14", "16+", "R", "MA-17", "TV-MA", "NC-17",
   "X", "18+"]

/-- Index of the first occurrence of `s` in `l` (models the dict built by
`{val: i for i, val in enumerate(...)}`; the source list has no duplicates). -/
def idxIn (l : List String) (s : String) : Option ℕ :=
  match l with
  | [] => Option.none
  | x :: xs => if x = s then some 0 else (idxIn xs s).map (· + 1)

/-- `main.py` `CLASSIFICACAO_MPAA_MAPA_ORDINAL` (line 110-111) as a lookup. -/
def CLASSIFICACAO_MPAA_MAPA_ORDINAL (s : String) : Option ℕ :=
  idxIn CLASSIFICACOES_MPAA_POSSIVEIS s

/-- `main.py` `MAX_DIFF_CLASSIFICACAO_MPAA` (line 112) = 26. -/
def MAX_DIFF_CLASSIFICACAO_MPAA : ℕ := CLASSIFICACOES_MPAA_POSSIVEIS.length - 1

/-- `main.py` line 407-408: coerce an ordinal-metric argument to a string,
substituting `"Unrated"` for `None` and for blank strings. -/
def ordinal_s_val (v : Value) : String :=
  if v ≠ Value.vnone ∧ pyStrip (pyStr v) ≠ "" then pyStr v else "Unrated"

/-- `main.py` line 411-412: keep the string if it is a key of the ordinal
map, otherwise try `s.upper().replace(" ", "-")`. -/
def ordinal_norm (s : String) : String :=
  if (CLASSIFICACAO_MPAA_MAPA_ORDINAL s).isSome then s
  else pyReplaceSpace (pyUpper s)

/-- `main.py` line 414-415: the ordinal index finally looked up for one
ordinal-metric argument. -/
def ordinal_num (v : Value) : Option ℕ :=
  CLASSIFICACAO_MPAA_MAPA_ORDINAL (ordinal_norm (ordinal_s_val v))

/-- `main.py` `similaridade_ordinal_mpaa` (line 404-425). -/
def similaridade_ordinal_mpaa (val1_str val2_str : Value) : ℚ :=
  match ordinal_num val1_str, ordinal_num val2_str with
  | some val1_num, some val2_num =>
    if MAX_DIFF_CLASSIFICACAO_MPAA = 0 then (if val1_num = val2_num then 1 else 0)
    else 1 - (|(val1_num : ℚ) - (val2_num : ℚ)| / (MAX_DIFF_CLASSIFICACAO_MPAA : ℚ))
  | _, _ => if ordinal_s_val val1_str = ordinal_s_val val2_str then 1 else 0

/-- `teste_aula.py` `calcular_similaridade_numerica_simples` (line 1-12).
Unlike `main.py`'s numeric metric there is NO `isinstance` guard: when
`max_diff ≠ 0`, the subtraction `valor_problema - valor_base` raises a
`TypeError` (modelled by `Option.none`) whenever either argument is `None`
or otherwise non-numeric. -/
def calcular_similaridade_numerica_simples (valor_problema valor_base : Value)
    (max_diff : ℚ) : Option ℚ :=
  if max_diff = 0 then some (if pyEq valor_problema valor_base then 1 else 0)
  else
    (pySub valor_problema valor_base).map (fun d => max 0 (1 - |d| / max_diff))

/-- `teste_aula.py` `calcular_similaridade_categorica_simples` (line 15-20). -/
def calcular_similaridade_categorica_simples (valor_problema valor_base : Value) : ℚ :=
  if pyEq valor_problema valor_base then 1 else 0

/-! ### Normalisation ranges (`main.py` line 114-149)

`MAX_ANO = datetime.datetime.now().year` depends on the environment the
program runs in, so the aggregator below takes it as the parameter `maxAno`;
every other bound is the literal constant from the source. -/

def MIN_ANO : ℚ := 1920
def MIN_DURACAO : ℚ := 30
def MAX_DURACAO : ℚ := 300
def MIN_AVALIACAO_IMDB : ℚ := 0
def MAX_AVALIACAO_IMDB : ℚ := 10
def MIN_VOTOS : ℚ := 0
def MAX_VOTOS : ℚ := 3000000
def MIN_ORCAMENTO : ℚ := 1000
def MAX_ORCAMENTO : ℚ := 500000000
def MIN_BILHETERIA_MUNDIAL : ℚ := 0
def MAX_BILHETERIA_MUNDIAL : ℚ := 3000000000
def MIN_VITORIAS : ℚ := 0
def MAX_VITORIAS : ℚ := 200
def MIN_INDICACOES : ℚ := 0
def MAX_INDICACOES : ℚ := 300
def MIN_OSCARS_INDICADOS : ℚ := 0
def MAX_OSCARS_INDICADOS : ℚ := 50

/-! ### Case records, weights and the global aggregator (`main.py` 427-589) -/

/-- The 16 similarity-relevant attributes of a case dictionary.  A field is
`Option.none` when the key is absent from the dictionary and
`some Value.vnone` when the key is present but maps to Python `None`.
The source dictionaries also carry presentation-only keys (`titulo`,
`link`, ...); those never reach the similarity computation, and their
presence does not change `calcular_similaridade_global` (a dictionary with
only such keys behaves exactly like an empty one: every attribute block is
skipped, the effective weight stays `0.0` and the result is `0.0`, which is
also what the `if not caso` guard returns). -/
structure CaseRecord where
  generos : Option Value := Option.none
  ano_lancamento : Option Value := Option.none
  classificacao_etaria : Option Value := Option.none
  duracao_minutos : Option Value := Option.none
  avaliacao_critica : Option Value := Option.none
  votos : Option Value := Option.none
  orcamento : Option Value := Option.none
  bilheteria_mundial : Option Value := Option.none
  diretores : Option Value := Option.none
  roteiristas : Option Value := Option.none
  estrelas : Option Value := Option.none
  pais_origem : Option Value := Option.none
  idioma : Option Value := Option.none
  vitorias : Option Value := Option.none
  indicacoes : Option Value := Option.none
  oscars_indicados : Option Value := Option.none
deriving DecidableEq

/-- Python truthiness of the case dictionary restricted to the 16 modelled
attributes (see the comment on `CaseRecord`). -/
def CaseRecord.isEmpty (c : CaseRecord) : Bool :=
  c.generos.isNone && c.ano_lancamento.isNone && c.classificacao_etaria.isNone &&
  c.duracao_minutos.isNone && c.avaliacao_critica.isNone && c.votos.isNone &&
  c.orcamento.isNone && c.bilheteria_mundial.isNone && c.diretores.isNone &&
  c.roteiristas.isNone && c.estrelas.isNone && c.pais_origem.isNone &&
  c.idioma.isNone && c.vitorias.isNone && c.indicacoes.isNone &&
  c.oscars_indicados.isNone

/-- The weights dictionary `pesos`.  `pesos.get(k, 0)` is modelled by the
field itself, with `0` as the default for attributes the user left out. -/
structure Pesos where
  generos : ℚ := 0
  ano_lancamento : ℚ := 0
  classificacao_etaria : ℚ := 0
  duracao_minutos : ℚ := 0
  avaliacao_critica : ℚ := 0
  votos : ℚ := 0
  orcamento : ℚ := 0
  bilheteria_mundial : ℚ := 0
  diretores : ℚ := 0
  roteiristas : ℚ := 0
  estrelas : ℚ := 0
  pais_origem : ℚ := 0
  idioma : ℚ := 0
  vitorias : ℚ := 0
  indicacoes : ℚ := 0
  oscars_indicados : ℚ := 0
deriving DecidableEq

/-- `main.py` `PESOS_PADRAO` (line 430-448). -/
def PESOS_PADRAO : Pesos :=
  { generos := 20/100, ano_lancamento := 10/100, classificacao_etaria := 10/100,
    duracao_minutos := 5/100, avaliacao_critica := 15/100, votos := 5/100,
    orcamento := 5/100, bilheteria_mundial := 5/100, diretores := 5/100,
    roteiristas := 5/100, estrelas := 10/100, pais_origem := 2/100,
    idioma := 2/100, vitorias := 3/100, indicacoes := 2/100,
    oscars_indicados := 1/100 }

/-- `main.py` `adicionar_similaridade` (line 460-466): running pair of
(sum of `sim * weight`, sum of weights); only positive weights count. -/
def adicionar_similaridade (peso_atributo similaridade_calculada : ℚ)
    (acc : ℚ × ℚ) : ℚ × ℚ :=
  if peso_atributo > 0 then
    (acc.1 + similaridade_calculada * peso_atributo, acc.2 + peso_atributo)
  else acc

/-- One Jaccard attribute block of `calcular_similaridade_global`
(e.g. line 476-479): run only when the key is present in BOTH dictionaries
(any value, including `None`) and the weight is positive. -/
def jaccBlock (peso : ℚ) (f1 f2 : Option Value) (acc : ℚ × ℚ) : ℚ × ℚ :=
  match f1, f2 with
  | some v1, some v2 =>
    if peso > 0 then adicionar_similaridade peso (similaridade_jaccard v1 v2) acc
    else acc
  | _, _ => acc

/-- The ordinal attribute block (`main.py` line 489-494); same guard shape
as `jaccBlock`. -/
def ordBlock (peso : ℚ) (f1 f2 : Option Value) (acc : ℚ × ℚ) : ℚ × ℚ :=
  match f1, f2 with
  | some v1, some v2 =>
    if peso > 0 then
      adicionar_similaridade peso (similaridade_ordinal_mpaa v1 v2) acc
    else acc
  | _, _ => acc

/-- `d.get(k)` for a numeric attribute: collapses "key absent" and "key
present with value `None`" into `Option.none`, exactly like Python's
`d.get(k) is not None` test. -/
def getNum (f : Option Value) : Option Value :=
  match f with
  | some v => if v = Value.vnone then Option.none else some v
  | Option.none => Option.none

/-- One numeric attribute block of `calcular_similaridade_global`
(e.g. line 482-486): run only when `get` is non-`None` on both sides and
the weight is positive.  The `Option` result propagates the (here
impossible, since the source always passes numeric bounds) `TypeError` of
`similaridade_numerica_normalizada`. -/
def numBlock (peso : ℚ) (f1 f2 : Option Value) (min_val max_val : Value)
    (acc : ℚ × ℚ) : Option (ℚ × ℚ) :=
  match getNum f1, getNum f2 with
  | some v1, some v2 =>
    if peso > 0 then
      (similaridade_numerica_normalizada v1 v2 min_val max_val).map
        (fun s => adicionar_similaridade peso s acc)
    else some acc
  | _, _ => some acc

/-- The attribute loop of `calcular_similaridade_global` (line 456-580):
the 16 attribute blocks in source order, accumulating
(`sum(similaridades_ponderadas)`, `pesos_efetivamente_usados`).  A raised
exception inside a block would propagate (`Option.bind`); pure blocks are
applied directly to the accumulator. -/
def acumular_similaridades (maxAno : ℚ) (caso_novo caso_base : CaseRecord)
    (pesos : Pesos) : Option (ℚ × ℚ) :=
  (numBlock pesos.ano_lancamento caso_novo.ano_lancamento
      caso_base.ano_lancamento (Value.vnum MIN_ANO) (Value.vnum maxAno)
      (jaccBlock pesos.generos caso_novo.generos caso_base.generos
        (0, 0))).bind fun acc =>
  (numBlock pesos.duracao_minutos caso_novo.duracao_minutos
      caso_base.duracao_minutos (Value.vnum MIN_DURACAO) (Value.vnum MAX_DURACAO)
      (ordBlock pesos.classificacao_etaria caso_novo.classificacao_etaria
        caso_base.classificacao_etaria acc)).bind fun acc =>
  (numBlock pesos.avaliacao_critica caso_novo.avaliacao_critica
      caso_base.avaliacao_critica (Value.vnum MIN_AVALIACAO_IMDB)
      (Value.vnum MAX_AVALIACAO_IMDB) acc).bind fun acc =>
  (numBlock pesos.votos caso_novo.votos caso_base.votos
      (Value.vnum MIN_VOTOS) (Value.vnum MAX_VOTOS) acc).bind fun acc =>
  (numBlock pesos.orcamento caso_novo.orcamento caso_base.orcamento
      (Value.vnum MIN_ORCAMENTO) (Value.vnum MAX_ORCAMENTO) acc).bind fun acc =>
  (numBlock pesos.bilheteria_mundial caso_novo.bilheteria_mundial
      caso_base.bilheteria_mundial (Value.vnum MIN_BILHETERIA_MUNDIAL)
      (Value.vnum MAX_BILHETERIA_MUNDIAL) acc).bind fun acc =>
  (numBlock pesos.vitorias caso_novo.vitorias caso_base.vitorias
      (Value.vnum MIN_VITORIAS) (Value.vnum MAX_VITORIAS)
      (jaccBlock pesos.idioma caso_novo.idioma caso_base.idioma
        (jaccBlock pesos.pais_origem caso_novo.pais_origem caso_base.pais_origem
          (jaccBlock pesos.estrelas caso_novo.estrelas caso_base.estrelas
            (jaccBlock pesos.roteiristas caso_novo.roteiristas caso_base.roteiristas
              (jaccBlock pesos.diretores caso_novo.diretores caso_base.diretores
                acc)))))).bind fun acc =>
  (numBlock pesos.indicacoes caso_novo.indicacoes caso_base.indicacoes
      (Value.vnum MIN_INDICACOES) (Value.vnum MAX_INDICACOES) acc).bind fun acc =>
  numBlock pesos.oscars_indicados caso_novo.oscars_indicados
    caso_base.oscars_indicados (Value.vnum MIN_OSCARS_INDICADOS)
    (Value.vnum MAX_OSCARS_INDICADOS) acc

/-- `main.py` `calcular_similaridade_global` (line 451-589). -/
def calcular_similaridade_global (maxAno : ℚ) (caso_novo caso_base : CaseRecord)
    (pesos : Pesos) : Option ℚ :=
  if caso_novo.isEmpty || caso_base.isEmpty then some 0
  else
    (acumular_similaridades maxAno caso_novo caso_base pesos).map
      (fun acc => if acc.2 = 0 then 0 else acc.1 / acc.2)

/-! ### Retrieval (`main.py` `main`, line 879-893) -/

/-- The scoring loop (line 880-887): one `(caso, similaridade)` result per
record of the base, in base order.  `Option` propagates a raised exception
(never triggered: `calcular_similaridade_global` is total). -/
def pontuar_base (maxAno : ℚ) (novo_caso : CaseRecord) (pesos : Pesos) :
    List CaseRecord → Option (List (CaseRecord × ℚ))
  | [] => some []
  | caso_base :: rest =>
    (calcular_similaridade_global maxAno novo_caso caso_base pesos).bind
      (fun sim => (pontuar_base maxAno novo_caso pesos rest).map
        (fun l => (caso_base, sim) :: l))

/-- The descending-score ordering used by
`sorted(resultados, key=lambda x: x['similaridade'], reverse=True)`. -/
def score_desc : (CaseRecord × ℚ) → (CaseRecord × ℚ) → Prop :=
  fun a b => b.2 ≤ a.2

instance : DecidableRel score_desc :=
  fun a b => inferInstanceAs (Decidable (b.2 ≤ a.2))

instance : IsTotal (CaseRecord × ℚ) score_desc :=
  ⟨fun a b => le_total b.2 a.2⟩

instance : IsTrans (CaseRecord × ℚ) score_desc :=
  ⟨fun _ _ _ hab hbc => le_trans hbc hab⟩

/-- `main.py` line 891-892.  Python's `sorted` is a stable sort; it is
modelled by stable insertion sort, which computes the same list. -/
def ordenar_casos (resultados : List (CaseRecord × ℚ)) : List (CaseRecord × ℚ) :=
  List.insertionSort score_desc resultados

/-- The whole retrieval pipeline of `main` (line 879-893): score every case
of the base, then sort by descending similarity. -/
def recuperar (maxAno : ℚ) (novo_caso : CaseRecord) (pesos : Pesos)
    (base : List CaseRecord) : Option (List (CaseRecord × ℚ)) :=
  (pontuar_base maxAno novo_caso pesos base).map ordenar_casos

/-! ### `teste_aula.py`: the classroom variant of the weighted aggregator -/

/-- A Python dictionary with string keys, as used by `teste_aula.py`
(`caso_problema`, `caso_base`).  Keys are unique. -/
def PyDict : Type := List (String × Value)

/-- Python `k in d` / `d[k]` on a `PyDict`. -/
def dictGet (d : PyDict) (k : String) : Option Value :=
  List.lookup k d

/-- One entry of `atributos_info` in `teste_aula.py`: `tipo` is
`info.get('tipo')`; `max_diff` is `Option.none` when the key is absent
(so that `info.get('max_diff', 1.0)` yields the default `1.0`),
`some Option.none` when the key is present with value `None`, and
`some (some q)` for a numeric value. -/
structure AttrInfo where
  tipo : Option String := Option.none
  max_diff : Option (Option ℚ) := Option.none
deriving DecidableEq

/-- One iteration of the `for atributo, peso in pesos.items()` loop of
`teste_aula.py` `similaridade_ponderada_global` (line 50-86).  `Option.none`
models an exception raised inside the iteration (possible through
`calcular_similaridade_numerica_simples`). -/
def passo_ponderado (caso_problema caso_base : PyDict)
    (atributos_info : List (String × AttrInfo)) (acc : ℚ × ℚ)
    (entry : String × ℚ) : Option (ℚ × ℚ) :=
  let atributo := entry.1
  let peso := entry.2
  match dictGet caso_problema atributo, dictGet caso_base atributo with
  | some valor_problema, some valor_base =>
    match List.lookup atributo atributos_info with
    | some info_atributo =>
      let tipo_atributo := info_atributo.tipo
      if tipo_atributo = some "numerico" then
        match info_atributo.max_diff.getD (some 1) with
        | Option.none => some acc
        | some max_diff =>
          (calcular_similaridade_numerica_simples valor_problema valor_base
            max_diff).map
            (fun sim_local => (acc.1 + peso * sim_local, acc.2 + peso))
      else if tipo_atributo = some "categorico" then
        let sim_local :=
          calcular_similaridade_categorica_simples valor_problema valor_base
        some (acc.1 + peso * sim_local, acc.2 + peso)
      else some acc
    | Option.none => some acc
  | _, _ => some acc

/-- The whole accumulation loop of `similaridade_ponderada_global`:
running pair (`soma_similaridades_ponderadas`, `soma_pesos`). -/
def acumular_ponderada (caso_problema caso_base : PyDict)
    (atributos_info : List (String × AttrInfo)) :
    List (String × ℚ) → (ℚ × ℚ) → Option (ℚ × ℚ)
  | [], acc => some acc
  | entry :: rest, acc =>
    (passo_ponderado caso_problema caso_base atributos_info acc entry).bind
      (acumular_ponderada caso_problema caso_base atributos_info rest)

/-- `teste_aula.py` `similaridade_ponderada_global` (line 23-91). -/
def similaridade_ponderada_global (caso_problema caso_base : PyDict)
    (atributos_info : List (String × AttrInfo)) (pesos : List (String × ℚ)) :
    Option ℚ :=
  (acumular_ponderada caso_problema caso_base atributos_info pesos (0, 0)).map
    (fun acc => if acc.2 = 0 then 0 else acc.1 / acc.2)

/-! ### Definitions taken from the claims' own words

These are NOT translations of the source; each follows the wording of a
claim, so that the claim can be compared with the source function it
describes. -/

/-- Claim-side trimmed item used by `jaccard_claim_set`: a string item is
kept trimmed and only if non-empty; a bare number stays itself (the claim
only speaks about strings; numeric items keep the source's truthiness
filter so that the comparison isolates the trimming question). -/
def claimTrimItem : Item → Option Item
  | Item.str s => if pyStrip s = "" then Option.none else some (Item.str (pyStrip s))
  | Item.num q => if q = 0 then Option.none else some (Item.num q)

/-- Modelled from claim C7's words: "normalizes each input to a set of
non-empty, trimmed strings with duplicates removed, a bare scalar being
treated as a one-element set". -/
def jaccard_claim_set (v : Value) : Finset Item :=
  ((pyAsList v).filterMap claimTrimItem).toFinset

/-- Modelled from claim C7's words: `1.0` if both normalized sets are
empty, `0.0` if exactly one is empty, else `|A ∩ B| / |A ∪ B|`. -/
def jaccard_claim (A B : Value) : ℚ :=
  let sA := jaccard_claim_set A
  let sB := jaccard_claim_set B
  if sA = ∅ then (if sB = ∅ then 1 else 0)
  else if sB = ∅ then 0
  else ((sA ∩ sB).card : ℚ) / ((sA ∪ sB).card : ℚ)

/-- The amended form of claim C7: identical to the claim except that the
normalisation drops falsy / whitespace-only items but keeps the surviving
strings UNtrimmed (which is what the source's filter does). -/
def jaccard_amended (A B : Value) : ℚ :=
  let sA := jaccard_set A
  let sB := jaccard_set B
  if sA = ∅ then (if sB = ∅ then 1 else 0)
  else if sB = ∅ then 0
  else ((sA ∩ sB).card : ℚ) / ((sA ∪ sB).card : ℚ)

/-- Replace every maximal run of whitespace by a single hyphen (one literal
reading of claim C6's "internal whitespace replaced with a single hyphen").
Implemented by splitting on whitespace and re-joining with `"-"`. -/
def collapseWsAux : List Char → List Char → List (List Char)
  | [], acc => if acc = [] then [] else [acc.reverse]
  | c :: cs, acc =>
    if c.isWhitespace then
      (if acc = [] then collapseWsAux cs [] else acc.reverse :: collapseWsAux cs [])
    else collapseWsAux cs (c :: acc)

/-- See `collapseWsAux`. -/
def collapseWsHyphen (s : String) : String :=
  ⟨List.intercalate ['-'] (collapseWsAux s.data [])⟩

/-- Modelled from claim C6's words: substitute the fallback for
`None`/empty input, then look the string up, additionally trying the
normalized form (uppercase, internal whitespace replaced with a single
hyphen) when the raw string is not found. -/
def ordinal_claim_resolve (v : Value) : Option ℕ :=
  let s := if v = Value.vnone ∨ pyStrip (pyStr v) = "" then "Unrated" else pyStr v
  match CLASSIFICACAO_MPAA_MAPA_ORDINAL s with
  | some i => some i
  | Option.none => CLASSIFICACAO_MPAA_MAPA_ORDINAL (collapseWsHyphen (pyUpper s))

/-- Modelled from claim C6's words: if either value resolves to no index,
`1.0` iff the two RAW strings are equal; otherwise
`1.0 - |idx(a) - idx(b)| / (len(orderedValues) - 1)`. -/
def ordinal_claim (v1 v2 : Value) : ℚ :=
  match ordinal_claim_resolve v1, ordinal_claim_resolve v2 with
  | some i, some j =>
    1 - (|(i : ℚ) - (j : ℚ)| /
      ((CLASSIFICACOES_MPAA_POSSIVEIS.length - 1 : ℕ) : ℚ))
  | _, _ => if pyStr v1 = pyStr v2 then 1 else 0

/-- The substitution step of the amended claim C6 (None/blank input becomes
the fallback `"Unrated"`, anything else its string form). -/
def amended_sub (v : Value) : String :=
  if v = Value.vnone ∨ pyStrip (pyStr v) = "" then "Unrated" else pyStr v

/-- Index resolution of the amended claim C6: look up the substituted
string, additionally trying `upper` with each space character replaced by a
hyphen when the substituted string is not found. -/
def amended_resolve (v : Value) : Option ℕ :=
  match CLASSIFICACAO_MPAA_MAPA_ORDINAL (amended_sub v) with
  | some i => some i
  | Option.none =>
    CLASSIFICACAO_MPAA_MAPA_ORDINAL (pyReplaceSpace (pyUpper (amended_sub v)))

/-- The amended form of claim C6: normalisation replaces each space
character by a hyphen (not whitespace runs), and the exact-match fallback
compares the SUBSTITUTED strings, not the raw inputs. -/
def ordinal_amended (v1 v2 : Value) : ℚ :=
  match amended_resolve v1, amended_resolve v2 with
  | some i, some j =>
    1 - (|(i : ℚ) - (j : ℚ)| /
      ((CLASSIFICACOES_MPAA_POSSIVEIS.length - 1 : ℕ) : ℚ))
  | _, _ => if amended_sub v1 = amended_sub v2 then 1 else 0

/-! ### Concrete fixtures for the claims' worked example (claim C1) -/

/-- Claim C1's query `{generos: ["Sci-Fi"], ano_lancamento: 2000}`. -/
def c1_query : CaseRecord :=
  { generos := some (Value.vlist [Item.str "Sci-Fi"]),
    ano_lancamento := some (Value.vnum 2000) }

/-- Claim C1's record 1: `{generos: ["Sci-Fi"], ano_lancamento: 1999}`. -/
def c1_rec1 : CaseRecord :=
  { generos := some (Value.vlist [Item.str "Sci-Fi"]),
    ano_lancamento := some (Value.vnum 1999) }

/-- Claim C1's record 2: `{generos: ["Drama"], ano_lancamento: 1972}`. -/
def c1_rec2 : CaseRecord :=
  { generos := some (Value.vlist [Item.str "Drama"]),
    ano_lancamento := some (Value.vnum 1972) }

/-- Claim C1's record 3: `{generos: ["Sci-Fi"], ano_lancamento: 2001}`. -/
def c1_rec3 : CaseRecord :=
  { generos := some (Value.vlist [Item.str "Sci-Fi"]),
    ano_lancamento := some (Value.vnum 2001) }

/-- Claim C1's weights `{generos: 0.5, ano_lancamento: 0.5}`. -/
def c1_pesos : Pesos := { generos := 1/2, ano_lancamento := 1/2 }

/-- The invariant carried through the attribute blocks: the accumulated
weighted sum is nonnegative and bounded by the accumulated weight. -/
def InvPair (acc : ℚ × ℚ) : Prop := 0 ≤ acc.1 ∧ acc.1 ≤ acc.2

/-- A value that Python's `isinstance(v, (int, float))` accepts. -/
def isNumeric (v : Value) : Prop := ∃ q, v = Value.vnum q

/-- A value that is either a number or `None` — the only shapes the source
ever passes as `min_val`/`max_val` to the numeric metric. -/
def numericOrNone (v : Value) : Prop := v = Value.vnone ∨ ∃ q, v = Value.vnum q

/-- Every weight of the weights dictionary lies in `[0, 1]` (the range the
interactive prompt enforces; hypothesis of claim C3). -/
def Pesos.mem01 (p : Pesos) : Prop :=
  (0 ≤ p.generos ∧ p.generos ≤ 1) ∧
  (0 ≤ p.ano_lancamento ∧ p.ano_lancamento ≤ 1) ∧
  (0 ≤ p.classificacao_etaria ∧ p.classificacao_etaria ≤ 1) ∧
  (0 ≤ p.duracao_minutos ∧ p.duracao_minutos ≤ 1) ∧
  (0 ≤ p.avaliacao_critica ∧ p.avaliacao_critica ≤ 1) ∧
  (0 ≤ p.votos ∧ p.votos ≤ 1) ∧
  (0 ≤ p.orcamento ∧ p.orcamento ≤ 1) ∧
  (0 ≤ p.bilheteria_mundial ∧ p.bilheteria_mundial ≤ 1) ∧
  (0 ≤ p.diretores ∧ p.diretores ≤ 1) ∧
  (0 ≤ p.roteiristas ∧ p.roteiristas ≤ 1) ∧
  (0 ≤ p.estrelas ∧ p.estrelas ≤ 1) ∧
  (0 ≤ p.pais_origem ∧ p.pais_origem ≤ 1) ∧
  (0 ≤ p.idioma ∧ p.idioma ≤ 1) ∧
  (0 ≤ p.vitorias ∧ p.vitorias ≤ 1) ∧
  (0 ≤ p.indicacoes ∧ p.indicacoes ≤ 1) ∧
  (0 ≤ p.oscars_indicados ∧ p.oscars_indicados ≤ 1)


/-! ## Helper lemmas -/

theorem pyEq_comm (a b : Value) : pyEq a b = pyEq b a := by
  cases a <;> cases b <;> simp [pyEq] <;> exact eq_comm

theorem similaridade_jaccard_both_empty {A B : Value} (hA : jaccard_set A = ∅)
    (hB : jaccard_set B = ∅) : similaridade_jaccard A B = 1 := by
  simp [similaridade_jaccard, hA, hB]

theorem similaridade_jaccard_one_empty {A B : Value}
    (h : jaccard_set A = ∅ ∨ jaccard_set B = ∅)
    (h2 : ¬(jaccard_set A = ∅ ∧ jaccard_set B = ∅)) :
    similaridade_jaccard A B = 0 := by
  simp only [similaridade_jaccard]
  rw [if_neg h2, if_pos h]

theorem similaridade_jaccard_of_ne_empty {A B : Value}
    (hA : jaccard_set A ≠ ∅) (hB : jaccard_set B ≠ ∅) :
    similaridade_jaccard A B =
      ((jaccard_set A ∩ jaccard_set B).card : ℚ) /
        ((jaccard_set A ∪ jaccard_set B).card : ℚ) := by
  have hu : (jaccard_set A ∪ jaccard_set B).card ≠ 0 := by
    rw [Ne, Finset.card_eq_zero, Finset.union_eq_empty]
    exact fun h => hA h.1
  simp only [similaridade_jaccard]
  rw [if_neg (by exact fun h => hA h.1), if_neg (by tauto), if_pos hu]

theorem similaridade_jaccard_comm (A B : Value) :
    similaridade_jaccard A B = similaridade_jaccard B A := by
  by_cases hA : jaccard_set A = ∅ <;> by_cases hB : jaccard_set B = ∅
  · rw [similaridade_jaccard_both_empty hA hB, similaridade_jaccard_both_empty hB hA]
  · rw [similaridade_jaccard_one_empty (Or.inl hA) (by tauto),
      similaridade_jaccard_one_empty (Or.inr hA) (by tauto)]
  · rw [similaridade_jaccard_one_empty (Or.inr hB) (by tauto),
      similaridade_jaccard_one_empty (Or.inl hB) (by tauto)]
  · rw [similaridade_jaccard_of_ne_empty hA hB,
      similaridade_jaccard_of_ne_empty hB hA, Finset.inter_comm, Finset.union_comm]

theorem similaridade_jaccard_nonneg (A B : Value) :
    0 ≤ similaridade_jaccard A B := by
  by_cases hA : jaccard_set A = ∅ <;> by_cases hB : jaccard_set B = ∅
  · rw [similaridade_jaccard_both_empty hA hB]; norm_num
  · rw [similaridade_jaccard_one_empty (Or.inl hA) (by tauto)]
  · rw [similaridade_jaccard_one_empty (Or.inr hB) (by tauto)]
  · rw [similaridade_jaccard_of_ne_empty hA hB]
    positivity

theorem similaridade_jaccard_le_one (A B : Value) :
    similaridade_jaccard A B ≤ 1 := by
  by_cases hA : jaccard_set A = ∅ <;> by_cases hB : jaccard_set B = ∅
  · rw [similaridade_jaccard_both_empty hA hB]
  · rw [similaridade_jaccard_one_empty (Or.inl hA) (by tauto)]; norm_num
  · rw [similaridade_jaccard_one_empty (Or.inr hB) (by tauto)]; norm_num
  · rw [similaridade_jaccard_of_ne_empty hA hB]
    have hu : (0 : ℚ) < ((jaccard_set A ∪ jaccard_set B).card : ℚ) := by
      have : (jaccard_set A ∪ jaccard_set B).Nonempty := by
        rw [Finset.nonempty_iff_ne_empty, Ne, Finset.union_eq_empty]
        exact fun h => hA h.1
      exact_mod_cast Finset.card_pos.mpr this
    rw [div_le_one hu]
    exact_mod_cast Finset.card_le_card Finset.inter_subset_union

theorem similaridade_numerica_normalizada_comm (val1 val2 min_val max_val : Value) :
    similaridade_numerica_normalizada val1 val2 min_val max_val =
      similaridade_numerica_normalizada val2 val1 min_val max_val := by
  cases val1 <;> cases val2 <;>
    simp only [similaridade_numerica_normalizada, pyEq_comm, abs_sub_comm] <;>
    simp

theorem similaridade_ordinal_mpaa_comm (v1 v2 : Value) :
    similaridade_ordinal_mpaa v1 v2 = similaridade_ordinal_mpaa v2 v1 := by
  rcases h1 : ordinal_num v1 with _ | i <;> rcases h2 : ordinal_num v2 with _ | j <;>
    simp only [similaridade_ordinal_mpaa, h1, h2] <;>
    simp [eq_comm, abs_sub_comm]

theorem similaridade_categorica_simples_comm (a b : Value) :
    similaridade_categorica_simples a b = similaridade_categorica_simples b a := by
  simp [similaridade_categorica_simples, pyEq_comm a b]

theorem idxIn_le {l : List String} {s : String} {i : ℕ} (h : idxIn l s = some i) :
    i + 1 ≤ l.length := by
  induction l generalizing i with
  | nil => simp [idxIn] at h
  | cons x xs ih =>
    rw [idxIn] at h
    by_cases hx : x = s
    · rw [if_pos hx] at h
      have h0 : i = 0 := by
        injection h with h
        omega
      simp [h0]
    · rw [if_neg hx] at h
      rcases h2 : idxIn xs s with _ | j
      · rw [h2] at h
        exact absurd h (by simp)
      · rw [h2] at h
        have hji : j + 1 = i := by
          have hm : Option.map (· + 1) (some j) = some (j + 1) := rfl
          rw [hm] at h
          injection h
        have := ih h2
        simp only [List.length_cons]
        omega

theorem ordinal_num_le {v : Value} {i : ℕ} (h : ordinal_num v = some i) :
    i ≤ 26 := by
  have := idxIn_le (show idxIn CLASSIFICACOES_MPAA_POSSIVEIS
    (ordinal_norm (ordinal_s_val v)) = some i from h)
  simp [CLASSIFICACOES_MPAA_POSSIVEIS] at this
  omega

theorem similaridade_ordinal_mpaa_mem (v1 v2 : Value) :
    0 ≤ similaridade_ordinal_mpaa v1 v2 ∧ similaridade_ordinal_mpaa v1 v2 ≤ 1 := by
  rcases h1 : ordinal_num v1 with _ | i <;> rcases h2 : ordinal_num v2 with _ | j <;>
    simp only [similaridade_ordinal_mpaa, h1, h2]
  · by_cases hss : ordinal_s_val v1 = ordinal_s_val v2 <;> simp [hss]
  · by_cases hss : ordinal_s_val v1 = ordinal_s_val v2 <;> simp [hss]
  · by_cases hss : ordinal_s_val v1 = ordinal_s_val v2 <;> simp [hss]
  · have hi := ordinal_num_le h1
    have hj := ordinal_num_le h2
    have habs : |(i : ℚ) - (j : ℚ)| ≤ 26 := by
      rw [abs_sub_le_iff]
      constructor
      · have h1q : (i : ℚ) ≤ 26 := by exact_mod_cast hi
        have h2q : (0 : ℚ) ≤ (j : ℚ) := by positivity
        linarith
      · have h1q : (j : ℚ) ≤ 26 := by exact_mod_cast hj
        have h2q : (0 : ℚ) ≤ (i : ℚ) := by positivity
        linarith
    have habs0 : (0 : ℚ) ≤ |(i : ℚ) - (j : ℚ)| := abs_nonneg _
    have hmd : ¬(MAX_DIFF_CLASSIFICACAO_MPAA = 0) := by decide
    rw [if_neg hmd]
    have hcast : ((MAX_DIFF_CLASSIFICACAO_MPAA : ℕ) : ℚ) = 26 := by
      norm_num [MAX_DIFF_CLASSIFICACAO_MPAA, CLASSIFICACOES_MPAA_POSSIVEIS]
    rw [hcast]
    constructor
    · have : |(i : ℚ) - (j : ℚ)| / 26 ≤ 1 := by
        rw [div_le_one (by norm_num : (0:ℚ) < 26)]
        exact habs
      linarith
    · have : 0 ≤ |(i : ℚ) - (j : ℚ)| / 26 := by positivity
      linarith

/-- With numeric bounds (the only kind `calcular_similaridade_global`
passes), the numeric metric never raises; its result lies in `[0, 1]`
whenever the range is not inverted. -/
theorem similaridade_numerica_normalizada_vnum (v1 v2 : Value) (m M : ℚ) :
    ∃ r, similaridade_numerica_normalizada v1 v2 (Value.vnum m) (Value.vnum M) =
        some r ∧ (0 ≤ M - m → 0 ≤ r ∧ r ≤ 1) := by
  by_cases h0 : v1 = Value.vnone ∨ v2 = Value.vnone
  · refine ⟨0, ?_, fun _ => by norm_num⟩
    simp only [similaridade_numerica_normalizada]
    rw [if_pos h0]
  · have hb : ¬(Value.vnum m = Value.vnone ∨ Value.vnum M = Value.vnone) := by simp
    have hsub : pySub (Value.vnum M) (Value.vnum m) = some (M - m) := rfl
    by_cases hz : M - m = 0
    · refine ⟨if pyEq v1 v2 then 1 else 0, ?_, fun _ => by split <;> norm_num⟩
      simp only [similaridade_numerica_normalizada]
      rw [if_neg h0, if_neg hb, hsub, Option.some_bind, if_pos hz]
    · have hnum : ∀ a b : ℚ, 0 ≤ M - m →
          0 ≤ max 0 (1 - |a - b| / (M - m)) ∧ max 0 (1 - |a - b| / (M - m)) ≤ 1 := by
        intro a b hspan
        have hpos : 0 < M - m := lt_of_le_of_ne hspan (Ne.symm hz)
        have hdn : (0:ℚ) ≤ |a - b| / (M - m) :=
          div_nonneg (abs_nonneg _) (le_of_lt hpos)
        refine ⟨le_max_left _ _, ?_⟩
        rw [max_le_iff]
        constructor <;> linarith
      cases v1 <;> cases v2 <;>
        first
          | exact absurd (Or.inl rfl) h0
          | exact absurd (Or.inr rfl) h0
          | (refine ⟨0, ?_, fun _ => by norm_num⟩
             simp only [similaridade_numerica_normalizada]
             rw [if_neg h0, if_neg hb, hsub, Option.some_bind, if_neg hz]
             done)
          | (rename_i a b
             refine ⟨max 0 (1 - |a - b| / (M - m)), ?_, fun hspan => hnum a b hspan⟩
             simp only [similaridade_numerica_normalizada]
             rw [if_neg h0, if_neg hb, hsub, Option.some_bind, if_neg hz])


theorem adicionar_similaridade_inv {w s : ℚ} {acc : ℚ × ℚ} (hs0 : 0 ≤ s)
    (hs1 : s ≤ 1) (h : InvPair acc) :
    InvPair (adicionar_similaridade w s acc) := by
  unfold adicionar_similaridade
  split_ifs with hw
  · refine ⟨?_, ?_⟩
    · have : 0 ≤ s * w := mul_nonneg hs0 (le_of_lt hw)
      have := h.1
      simp only
      linarith
    · have hsw : s * w ≤ w := by
        nlinarith
      have := h.2
      simp only
      linarith
  · exact h

theorem jaccBlock_inv {w : ℚ} {f1 f2 : Option Value} {acc : ℚ × ℚ}
    (h : InvPair acc) : InvPair (jaccBlock w f1 f2 acc) := by
  cases f1 with
  | none => exact h
  | some v1 =>
    cases f2 with
    | none => exact h
    | some v2 =>
      simp only [jaccBlock]
      split_ifs with hw
      · exact adicionar_similaridade_inv (similaridade_jaccard_nonneg v1 v2)
          (similaridade_jaccard_le_one v1 v2) h
      · exact h

theorem ordBlock_inv {w : ℚ} {f1 f2 : Option Value} {acc : ℚ × ℚ}
    (h : InvPair acc) : InvPair (ordBlock w f1 f2 acc) := by
  cases f1 with
  | none => exact h
  | some v1 =>
    cases f2 with
    | none => exact h
    | some v2 =>
      simp only [ordBlock]
      split_ifs with hw
      · exact adicionar_similaridade_inv (similaridade_ordinal_mpaa_mem v1 v2).1
          (similaridade_ordinal_mpaa_mem v1 v2).2 h
      · exact h

theorem numBlock_step (w : ℚ) (f1 f2 : Option Value) (m M : ℚ) (acc : ℚ × ℚ) :
    ∃ acc', numBlock w f1 f2 (Value.vnum m) (Value.vnum M) acc = some acc' ∧
      (InvPair acc → 0 ≤ M - m → InvPair acc') := by
  rcases h1 : getNum f1 with _ | v1 <;> rcases h2 : getNum f2 with _ | v2 <;>
    simp only [numBlock, h1, h2]
  · exact ⟨acc, rfl, fun h _ => h⟩
  · exact ⟨acc, rfl, fun h _ => h⟩
  · exact ⟨acc, rfl, fun h _ => h⟩
  · split_ifs with hw
    · obtain ⟨r, hr, hb⟩ := similaridade_numerica_normalizada_vnum v1 v2 m M
      rw [hr]
      exact ⟨adicionar_similaridade w r acc, rfl,
        fun h hspan => adicionar_similaridade_inv (hb hspan).1 (hb hspan).2 h⟩
    · exact ⟨acc, rfl, fun h _ => h⟩

/-- The attribute loop always terminates normally (no block can raise, since
every numeric bound passed by the source is a number), and — provided the
year range is not inverted — it maintains `InvPair`. -/
theorem acumular_total (maxAno : ℚ) (n b : CaseRecord) (p : Pesos) :
    ∃ acc, acumular_similaridades maxAno n b p = some acc ∧
      (1920 ≤ maxAno → InvPair acc) := by
  obtain ⟨a2, ha2, hi2⟩ := numBlock_step p.ano_lancamento n.ano_lancamento
    b.ano_lancamento MIN_ANO maxAno
    (jaccBlock p.generos n.generos b.generos (0, 0))
  obtain ⟨a4, ha4, hi4⟩ := numBlock_step p.duracao_minutos n.duracao_minutos
    b.duracao_minutos MIN_DURACAO MAX_DURACAO
    (ordBlock p.classificacao_etaria n.classificacao_etaria
      b.classificacao_etaria a2)
  obtain ⟨a5, ha5, hi5⟩ := numBlock_step p.avaliacao_critica n.avaliacao_critica
    b.avaliacao_critica MIN_AVALIACAO_IMDB MAX_AVALIACAO_IMDB a4
  obtain ⟨a6, ha6, hi6⟩ := numBlock_step p.votos n.votos b.votos
    MIN_VOTOS MAX_VOTOS a5
  obtain ⟨a7, ha7, hi7⟩ := numBlock_step p.orcamento n.orcamento b.orcamento
    MIN_ORCAMENTO MAX_ORCAMENTO a6
  obtain ⟨a8, ha8, hi8⟩ := numBlock_step p.bilheteria_mundial
    n.bilheteria_mundial b.bilheteria_mundial
    MIN_BILHETERIA_MUNDIAL MAX_BILHETERIA_MUNDIAL a7
  obtain ⟨a14, ha14, hi14⟩ := numBlock_step p.vitorias n.vitorias b.vitorias
    MIN_VITORIAS MAX_VITORIAS
    (jaccBlock p.idioma n.idioma b.idioma
      (jaccBlock p.pais_origem n.pais_origem b.pais_origem
        (jaccBlock p.estrelas n.estrelas b.estrelas
          (jaccBlock p.roteiristas n.roteiristas b.roteiristas
            (jaccBlock p.diretores n.diretores b.diretores a8)))))
  obtain ⟨a15, ha15, hi15⟩ := numBlock_step p.indicacoes n.indicacoes
    b.indicacoes MIN_INDICACOES MAX_INDICACOES a14
  obtain ⟨a16, ha16, hi16⟩ := numBlock_step p.oscars_indicados
    n.oscars_indicados b.oscars_indicados
    MIN_OSCARS_INDICADOS MAX_OSCARS_INDICADOS a15
  refine ⟨a16, ?_, ?_⟩
  · simp only [acumular_similaridades, ha2, ha4, ha5, ha6, ha7, ha8, ha14,
      ha15, ha16, Option.some_bind]
  · intro hA
    have i0 : InvPair ((0 : ℚ), (0 : ℚ)) := ⟨le_rfl, le_rfl⟩
    have i1 : InvPair (jaccBlock p.generos n.generos b.generos (0, 0)) :=
      jaccBlock_inv i0
    have i2 := hi2 i1 (by simp only [MIN_ANO]; linarith)
    have i3 : InvPair (ordBlock p.classificacao_etaria n.classificacao_etaria
        b.classificacao_etaria a2) := ordBlock_inv i2
    have i4 := hi4 i3 (by norm_num [MIN_DURACAO, MAX_DURACAO])
    have i5 := hi5 i4 (by norm_num [MIN_AVALIACAO_IMDB, MAX_AVALIACAO_IMDB])
    have i6 := hi6 i5 (by norm_num [MIN_VOTOS, MAX_VOTOS])
    have i7 := hi7 i6 (by norm_num [MIN_ORCAMENTO, MAX_ORCAMENTO])
    have i8 := hi8 i7 (by norm_num [MIN_BILHETERIA_MUNDIAL, MAX_BILHETERIA_MUNDIAL])
    have i13 : InvPair (jaccBlock p.idioma n.idioma b.idioma
        (jaccBlock p.pais_origem n.pais_origem b.pais_origem
          (jaccBlock p.estrelas n.estrelas b.estrelas
            (jaccBlock p.roteiristas n.roteiristas b.roteiristas
              (jaccBlock p.diretores n.diretores b.diretores a8))))) :=
      jaccBlock_inv (jaccBlock_inv (jaccBlock_inv (jaccBlock_inv
        (jaccBlock_inv i8))))
    have i14 := hi14 i13 (by norm_num [MIN_VITORIAS, MAX_VITORIAS])
    have i15 := hi15 i14 (by norm_num [MIN_INDICACOES, MAX_INDICACOES])
    exact hi16 i15 (by norm_num [MIN_OSCARS_INDICADOS, MAX_OSCARS_INDICADOS])

/-- `calcular_similaridade_global` never raises, and — when the year range
is not inverted — its result lies in `[0, 1]`. -/
theorem calcular_similaridade_global_total (maxAno : ℚ) (n b : CaseRecord)
    (p : Pesos) :
    ∃ r, calcular_similaridade_global maxAno n b p = some r ∧
      (1920 ≤ maxAno → 0 ≤ r ∧ r ≤ 1) := by
  obtain ⟨acc, hacc, hinv⟩ := acumular_total maxAno n b p
  by_cases he : (n.isEmpty || b.isEmpty) = true
  · refine ⟨0, ?_, fun _ => by norm_num⟩
    simp only [calcular_similaridade_global]
    rw [if_pos he]
  · refine ⟨if acc.2 = 0 then 0 else acc.1 / acc.2, ?_, ?_⟩
    · simp only [calcular_similaridade_global]
      rw [if_neg he, hacc]
      rfl
    · intro hA
      obtain ⟨h1, h2⟩ := hinv hA
      split_ifs with hz
      · norm_num
      · have hpos : 0 < acc.2 := lt_of_le_of_ne (le_trans h1 h2) (Ne.symm hz)
        exact ⟨div_nonneg h1 (le_of_lt hpos), (div_le_one hpos).mpr h2⟩

theorem jaccBlock_comm (w : ℚ) (f1 f2 : Option Value) (acc : ℚ × ℚ) :
    jaccBlock w f1 f2 acc = jaccBlock w f2 f1 acc := by
  cases f1 with
  | none => cases f2 <;> rfl
  | some v1 =>
    cases f2 with
    | none => rfl
    | some v2 =>
      simp only [jaccBlock]
      rw [similaridade_jaccard_comm v1 v2]

theorem ordBlock_comm (w : ℚ) (f1 f2 : Option Value) (acc : ℚ × ℚ) :
    ordBlock w f1 f2 acc = ordBlock w f2 f1 acc := by
  cases f1 with
  | none => cases f2 <;> rfl
  | some v1 =>
    cases f2 with
    | none => rfl
    | some v2 =>
      simp only [ordBlock]
      rw [similaridade_ordinal_mpaa_comm v1 v2]

theorem numBlock_comm (w : ℚ) (f1 f2 : Option Value) (m M : Value) (acc : ℚ × ℚ) :
    numBlock w f1 f2 m M acc = numBlock w f2 f1 m M acc := by
  rcases h1 : getNum f1 with _ | v1 <;> rcases h2 : getNum f2 with _ | v2 <;>
    simp only [numBlock, h1, h2]
  rw [similaridade_numerica_normalizada_comm v1 v2]

theorem acumular_comm (maxAno : ℚ) (n b : CaseRecord) (p : Pesos) :
    acumular_similaridades maxAno n b p = acumular_similaridades maxAno b n p := by
  simp only [acumular_similaridades,
    jaccBlock_comm p.generos n.generos b.generos,
    jaccBlock_comm p.diretores n.diretores b.diretores,
    jaccBlock_comm p.roteiristas n.roteiristas b.roteiristas,
    jaccBlock_comm p.estrelas n.estrelas b.estrelas,
    jaccBlock_comm p.pais_origem n.pais_origem b.pais_origem,
    jaccBlock_comm p.idioma n.idioma b.idioma,
    ordBlock_comm p.classificacao_etaria n.classificacao_etaria b.classificacao_etaria,
    numBlock_comm p.ano_lancamento n.ano_lancamento b.ano_lancamento,
    numBlock_comm p.duracao_minutos n.duracao_minutos b.duracao_minutos,
    numBlock_comm p.avaliacao_critica n.avaliacao_critica b.avaliacao_critica,
    numBlock_comm p.votos n.votos b.votos,
    numBlock_comm p.orcamento n.orcamento b.orcamento,
    numBlock_comm p.bilheteria_mundial n.bilheteria_mundial b.bilheteria_mundial,
    numBlock_comm p.vitorias n.vitorias b.vitorias,
    numBlock_comm p.indicacoes n.indicacoes b.indicacoes,
    numBlock_comm p.oscars_indicados n.oscars_indicados b.oscars_indicados]

/-- `pontuar_base` never raises; it yields one result per base record, in
base order, carrying that record's global similarity. -/
theorem pontuar_base_spec (maxAno : ℚ) (novo : CaseRecord) (pesos : Pesos) :
    ∀ base : List CaseRecord, ∃ rs,
      pontuar_base maxAno novo pesos base = some rs ∧
      rs.map Prod.fst = base ∧
      ∀ pr ∈ rs, calcular_similaridade_global maxAno novo pr.1 pesos = some pr.2 := by
  intro base
  induction base with
  | nil => exact ⟨[], rfl, rfl, by simp⟩
  | cons c rest ih =>
    obtain ⟨rs, hrs, hmap, hmem⟩ := ih
    obtain ⟨r, hr, _⟩ := calcular_similaridade_global_total maxAno novo c pesos
    refine ⟨(c, r) :: rs, ?_, ?_, ?_⟩
    · simp [pontuar_base, hr, hrs]
    · simp [hmap]
    · intro pr hpr
      rcases List.mem_cons.mp hpr with h | h
      · rw [h]
        exact hr
      · exact hmem pr h

/-- Stability of one ordered insertion: filtering the inserted list by an
exact score keeps the untouched elements in order, with the new element in
front exactly when it carries that score. -/
theorem filter_orderedInsert_score (x : CaseRecord × ℚ) (q : ℚ) :
    ∀ l : List (CaseRecord × ℚ),
      (List.orderedInsert score_desc x l).filter (fun pr => decide (pr.2 = q)) =
        if x.2 = q then x :: l.filter (fun pr => decide (pr.2 = q))
        else l.filter (fun pr => decide (pr.2 = q)) := by
  intro l
  induction l with
  | nil =>
    by_cases hx : x.2 = q <;> simp [List.orderedInsert, List.filter, hx]
  | cons y ys ih =>
    rw [List.orderedInsert]
    by_cases hr : score_desc x y
    · rw [if_pos hr]
      by_cases hx : x.2 = q <;> simp [List.filter_cons, hx]
    · rw [if_neg hr]
      have hlt : x.2 < y.2 := not_le.mp hr
      by_cases hx : x.2 = q
      · have hy : y.2 ≠ q := by
          intro h
          rw [h, ← hx] at hlt
          exact lt_irrefl _ hlt
        simp [List.filter_cons, hy, hx, ih]
      · by_cases hy : y.2 = q <;> simp [List.filter_cons, hy, hx, ih]

/-- Stability of the whole sort: for every exact score value, sorting
preserves the relative order of the results carrying that score. -/
theorem filter_ordenar_casos (q : ℚ) :
    ∀ l : List (CaseRecord × ℚ),
      (ordenar_casos l).filter (fun pr => decide (pr.2 = q)) =
        l.filter (fun pr => decide (pr.2 = q)) := by
  intro l
  induction l with
  | nil => rfl
  | cons y ys ih =>
    show (List.orderedInsert score_desc y (ordenar_casos ys)).filter _ = _
    rw [filter_orderedInsert_score]
    by_cases hy : y.2 = q <;> simp [List.filter_cons, hy, ih]

/-- `teste_aula.py`'s simple numeric metric stays in `[0, 1]` whenever it
returns at all and the normalisation span is nonnegative. -/
theorem calcular_similaridade_numerica_simples_mem {vp vb : Value} {md : ℚ}
    (hmd : 0 ≤ md) :
    ∀ s, calcular_similaridade_numerica_simples vp vb md = some s →
      0 ≤ s ∧ s ≤ 1 := by
  intro s hs
  by_cases hz : md = 0
  · rw [calcular_similaridade_numerica_simples, if_pos hz] at hs
    injection hs with hs
    subst hs
    split_ifs <;> norm_num
  · rw [calcular_similaridade_numerica_simples, if_neg hz] at hs
    rcases hsub : pySub vp vb with _ | d
    · rw [hsub] at hs
      exact absurd hs (by simp)
    · rw [hsub] at hs
      have hs2 : some (max 0 (1 - |d| / md)) = some s := hs
      injection hs2 with hs2
      subst hs2
      have hpos : 0 < md := lt_of_le_of_ne hmd (Ne.symm hz)
      have hdn : (0:ℚ) ≤ |d| / md := div_nonneg (abs_nonneg _) (le_of_lt hpos)
      refine ⟨le_max_left _ _, ?_⟩
      rw [max_le_iff]
      constructor <;> linarith

/-- One loop iteration of `similaridade_ponderada_global` preserves the
invariant, given a weight in `[0, 1]` and nonnegative configured spans. -/
theorem passo_ponderado_inv {caso_problema caso_base : PyDict}
    {atributos_info : List (String × AttrInfo)}
    (hinfo : ∀ a ia q, List.lookup a atributos_info = some ia →
      ia.max_diff = some (some q) → 0 ≤ q)
    {entry : String × ℚ} (hw : 0 ≤ entry.2 ∧ entry.2 ≤ 1) {acc : ℚ × ℚ}
    (hacc : InvPair acc) :
    ∀ acc', passo_ponderado caso_problema caso_base atributos_info acc entry =
      some acc' → InvPair acc' := by
  intro acc' h
  have haccum : ∀ s : ℚ, 0 ≤ s → s ≤ 1 →
      InvPair (acc.1 + entry.2 * s, acc.2 + entry.2) := by
    intro s h0 h1
    refine ⟨?_, ?_⟩
    · have := mul_nonneg hw.1 h0
      have := hacc.1
      simp only
      linarith
    · have hws : entry.2 * s ≤ entry.2 := mul_le_of_le_one_right hw.1 h1
      have := hacc.2
      simp only
      linarith
  rcases hgp : dictGet caso_problema entry.1 with _ | vp <;>
    rcases hgb : dictGet caso_base entry.1 with _ | vb <;>
    simp only [passo_ponderado, hgp, hgb] at h
  · injection h with h
    subst h
    exact hacc
  · injection h with h
    subst h
    exact hacc
  · injection h with h
    subst h
    exact hacc
  rcases hli : List.lookup entry.1 atributos_info with _ | ia <;>
    simp only [hli] at h
  · injection h with h
    subst h
    exact hacc
  by_cases ht : ia.tipo = some "numerico"
  · rw [if_pos ht] at h
    rcases hmd : ia.max_diff with _ | omd
    · rw [hmd] at h
      have h1 : (calcular_similaridade_numerica_simples vp vb 1).map
          (fun s => (acc.1 + entry.2 * s, acc.2 + entry.2)) = some acc' := h
      rcases hs : calcular_similaridade_numerica_simples vp vb 1 with _ | s
      · rw [hs] at h1
        exact absurd h1 (by simp)
      · rw [hs] at h1
        have h2 : some (acc.1 + entry.2 * s, acc.2 + entry.2) = some acc' := h1
        injection h2 with h2
        subst h2
        obtain ⟨hs0, hs1⟩ :=
          calcular_similaridade_numerica_simples_mem (by norm_num) s hs
        exact haccum s hs0 hs1
    · rcases omd with _ | md
      · rw [hmd] at h
        have h2 : some acc = some acc' := h
        injection h2 with h2
        subst h2
        exact hacc
      · rw [hmd] at h
        have h1 : (calcular_similaridade_numerica_simples vp vb md).map
            (fun s => (acc.1 + entry.2 * s, acc.2 + entry.2)) = some acc' := h
        rcases hs : calcular_similaridade_numerica_simples vp vb md with _ | s
        · rw [hs] at h1
          exact absurd h1 (by simp)
        · rw [hs] at h1
          have h2 : some (acc.1 + entry.2 * s, acc.2 + entry.2) = some acc' := h1
          injection h2 with h2
          subst h2
          obtain ⟨hs0, hs1⟩ :=
            calcular_similaridade_numerica_simples_mem
              (hinfo entry.1 ia md hli hmd) s hs
          exact haccum s hs0 hs1
  · rw [if_neg ht] at h
    by_cases ht2 : ia.tipo = some "categorico"
    · rw [if_pos ht2] at h
      have h2 : some (acc.1 +
          entry.2 * calcular_similaridade_categorica_simples vp vb,
          acc.2 + entry.2) = some acc' := h
      injection h2 with h2
      subst h2
      have : 0 ≤ calcular_similaridade_categorica_simples vp vb ∧
          calcular_similaridade_categorica_simples vp vb ≤ 1 := by
        unfold calcular_similaridade_categorica_simples
        split_ifs <;> norm_num
      exact haccum _ this.1 this.2
    · rw [if_neg ht2] at h
      injection h with h
      subst h
      exact hacc

/-- The accumulation loop of `similaridade_ponderada_global` preserves the
invariant. -/
theorem acumular_ponderada_inv {caso_problema caso_base : PyDict}
    {atributos_info : List (String × AttrInfo)}
    (hinfo : ∀ a ia q, List.lookup a atributos_info = some ia →
      ia.max_diff = some (some q) → 0 ≤ q) :
    ∀ (pesos : List (String × ℚ)) (acc acc' : ℚ × ℚ),
      (∀ e ∈ pesos, 0 ≤ e.2 ∧ e.2 ≤ 1) → InvPair acc →
      acumular_ponderada caso_problema caso_base atributos_info pesos acc =
        some acc' → InvPair acc' := by
  intro pesos
  induction pesos with
  | nil =>
    intro acc acc' _ hacc h
    injection h with h
    subst h
    exact hacc
  | cons e rest ih =>
    intro acc acc' hws hacc h
    rw [acumular_ponderada] at h
    rcases hp : passo_ponderado caso_problema caso_base atributos_info acc e
      with _ | acc1
    · rw [hp] at h
      exact absurd h (by simp)
    · rw [hp] at h
      have hacc1 := passo_ponderado_inv hinfo
        (hws e (List.mem_cons_self e rest)) hacc acc1 hp
      exact ih acc1 acc' (fun x hx => hws x (List.mem_cons_of_mem e hx)) hacc1 h

/-- `teste_aula.py`'s aggregator stays in `[0, 1]` whenever it returns and
the configuration is sane (weights in `[0, 1]`, nonnegative spans). -/
theorem similaridade_ponderada_global_mem {caso_problema caso_base : PyDict}
    {atributos_info : List (String × AttrInfo)} {pesos : List (String × ℚ)}
    (hws : ∀ e ∈ pesos, 0 ≤ e.2 ∧ e.2 ≤ 1)
    (hinfo : ∀ a ia q, List.lookup a atributos_info = some ia →
      ia.max_diff = some (some q) → 0 ≤ q) :
    ∀ r, similaridade_ponderada_global caso_problema caso_base atributos_info
      pesos = some r → 0 ≤ r ∧ r ≤ 1 := by
  intro r h
  unfold similaridade_ponderada_global at h
  rcases ha : acumular_ponderada caso_problema caso_base atributos_info pesos
    (0, 0) with _ | acc
  · rw [ha] at h
    exact absurd h (by simp)
  · rw [ha] at h
    have hi := acumular_ponderada_inv hinfo pesos (0, 0) acc hws
      ⟨le_rfl, le_rfl⟩ ha
    have h2 : some (if acc.2 = 0 then 0 else acc.1 / acc.2) = some r := h
    injection h2 with h2
    subst h2
    split_ifs with hz
    · norm_num
    · have hpos : 0 < acc.2 := lt_of_le_of_ne (le_trans hi.1 hi.2) (Ne.symm hz)
      exact ⟨div_nonneg hi.1 (le_of_lt hpos), (div_le_one hpos).mpr hi.2⟩

/-! ## Concrete evaluation -/

theorem jaccBlock_none_right (w : ℚ) (f1 : Option Value) (acc : ℚ × ℚ) :
    jaccBlock w f1 Option.none acc = acc := by
  cases f1 <;> rfl

theorem ordBlock_none_right (w : ℚ) (f1 : Option Value) (acc : ℚ × ℚ) :
    ordBlock w f1 Option.none acc = acc := by
  cases f1 <;> rfl

theorem numBlock_none_right (w : ℚ) (f1 : Option Value) (m M : Value)
    (acc : ℚ × ℚ) : numBlock w f1 Option.none m M acc = some acc := by
  rcases h : getNum f1 with _ | v <;> simp [numBlock, h, getNum]

theorem c1_jaccard_scifi_scifi :
    similaridade_jaccard (Value.vlist [Item.str "Sci-Fi"])
      (Value.vlist [Item.str "Sci-Fi"]) = 1 := by
  rw [similaridade_jaccard_of_ne_empty (by decide) (by decide)]
  rw [show ((jaccard_set (Value.vlist [Item.str "Sci-Fi"]) ∩
      jaccard_set (Value.vlist [Item.str "Sci-Fi"])).card) = 1 from by decide]
  rw [show ((jaccard_set (Value.vlist [Item.str "Sci-Fi"]) ∪
      jaccard_set (Value.vlist [Item.str "Sci-Fi"])).card) = 1 from by decide]
  norm_num

theorem c1_jaccard_scifi_drama :
    similaridade_jaccard (Value.vlist [Item.str "Sci-Fi"])
      (Value.vlist [Item.str "Drama"]) = 0 := by
  rw [similaridade_jaccard_of_ne_empty (by decide) (by decide)]
  rw [show ((jaccard_set (Value.vlist [Item.str "Sci-Fi"]) ∩
      jaccard_set (Value.vlist [Item.str "Drama"])).card) = 0 from by decide]
  rw [show ((jaccard_set (Value.vlist [Item.str "Sci-Fi"]) ∪
      jaccard_set (Value.vlist [Item.str "Drama"])).card) = 2 from by decide]
  norm_num

theorem getNum_vnum (q : ℚ) :
    getNum (some (Value.vnum q)) = some (Value.vnum q) := by
  simp only [getNum]
  rw [if_neg (fun h => Value.noConfusion h)]

theorem getNum_none : getNum Option.none = Option.none := rfl

theorem c1_num_2000_1999 :
    similaridade_numerica_normalizada (Value.vnum 2000) (Value.vnum 1999)
      (Value.vnum MIN_ANO) (Value.vnum 2025) = some (104/105) := by
  simp only [similaridade_numerica_normalizada, pySub, MIN_ANO]
  norm_num
  rw [if_neg (show ¬(Value.vnum (2000:ℚ) = Value.vnone ∨
      Value.vnum (1999:ℚ) = Value.vnone) from by
    rintro (h | h) <;> exact Value.noConfusion h)]
  rw [if_neg (show ¬(Value.vnum (1920:ℚ) = Value.vnone ∨
      Value.vnum (2025:ℚ) = Value.vnone) from by
    rintro (h | h) <;> exact Value.noConfusion h)]

theorem c1_num_2000_2001 :
    similaridade_numerica_normalizada (Value.vnum 2000) (Value.vnum 2001)
      (Value.vnum MIN_ANO) (Value.vnum 2025) = some (104/105) := by
  simp only [similaridade_numerica_normalizada, pySub, MIN_ANO]
  norm_num
  rw [if_neg (show ¬(Value.vnum (2000:ℚ) = Value.vnone ∨
      Value.vnum (2001:ℚ) = Value.vnone) from by
    rintro (h | h) <;> exact Value.noConfusion h)]
  rw [if_neg (show ¬(Value.vnum (1920:ℚ) = Value.vnone ∨
      Value.vnum (2025:ℚ) = Value.vnone) from by
    rintro (h | h) <;> exact Value.noConfusion h)]

theorem c1_num_2000_1972 :
    similaridade_numerica_normalizada (Value.vnum 2000) (Value.vnum 1972)
      (Value.vnum MIN_ANO) (Value.vnum 2025) = some (77/105) := by
  simp only [similaridade_numerica_normalizada, pySub, MIN_ANO]
  norm_num
  rw [if_neg (show ¬(Value.vnum (2000:ℚ) = Value.vnone ∨
      Value.vnum (1972:ℚ) = Value.vnone) from by
    rintro (h | h) <;> exact Value.noConfusion h)]
  rw [if_neg (show ¬(Value.vnum (1920:ℚ) = Value.vnone ∨
      Value.vnum (2025:ℚ) = Value.vnone) from by
    rintro (h | h) <;> exact Value.noConfusion h)]

theorem c1_global_rec1 :
    calcular_similaridade_global 2025 c1_query c1_rec1 c1_pesos =
      some (209/210) := by
  norm_num [calcular_similaridade_global, acumular_similaridades, c1_query,
    c1_rec1, c1_pesos, CaseRecord.isEmpty, numBlock, jaccBlock, ordBlock,
    getNum_vnum, getNum_none, adicionar_similaridade, jaccBlock_none_right,
    ordBlock_none_right, numBlock_none_right, c1_jaccard_scifi_scifi,
    c1_num_2000_1999]

theorem c1_global_rec2 :
    calcular_similaridade_global 2025 c1_query c1_rec2 c1_pesos =
      some (77/210) := by
  norm_num [calcular_similaridade_global, acumular_similaridades, c1_query,
    c1_rec2, c1_pesos, CaseRecord.isEmpty, numBlock, jaccBlock, ordBlock,
    getNum_vnum, getNum_none, adicionar_similaridade, jaccBlock_none_right,
    ordBlock_none_right, numBlock_none_right, c1_jaccard_scifi_drama,
    c1_num_2000_1972]

theorem c1_global_rec3 :
    calcular_similaridade_global 2025 c1_query c1_rec3 c1_pesos =
      some (209/210) := by
  norm_num [calcular_similaridade_global, acumular_similaridades, c1_query,
    c1_rec3, c1_pesos, CaseRecord.isEmpty, numBlock, jaccBlock, ordBlock,
    getNum_vnum, getNum_none, adicionar_similaridade, jaccBlock_none_right,
    ordBlock_none_right, numBlock_none_right, c1_jaccard_scifi_scifi,
    c1_num_2000_2001]

theorem amended_sub_eq (v : Value) : amended_sub v = ordinal_s_val v := by
  unfold amended_sub ordinal_s_val
  by_cases h : v = Value.vnone ∨ pyStrip (pyStr v) = ""
  · rw [if_pos h, if_neg (by tauto)]
  · rw [if_neg h, if_pos (by tauto)]

theorem amended_resolve_eq (v : Value) : amended_resolve v = ordinal_num v := by
  unfold amended_resolve ordinal_num ordinal_norm
  rw [amended_sub_eq]
  rcases h : CLASSIFICACAO_MPAA_MAPA_ORDINAL (ordinal_s_val v) with _ | i <;>
    simp [h]

theorem ordinal_amended_eq (v1 v2 : Value) :
    similaridade_ordinal_mpaa v1 v2 = ordinal_amended v1 v2 := by
  unfold similaridade_ordinal_mpaa ordinal_amended
  rw [amended_resolve_eq v1, amended_resolve_eq v2, amended_sub_eq v1,
    amended_sub_eq v2]
  rcases h1 : ordinal_num v1 with _ | i <;>
    rcases h2 : ordinal_num v2 with _ | j <;> simp only [h1, h2]
  rw [if_neg (show ¬(MAX_DIFF_CLASSIFICACAO_MPAA = 0) from by decide)]
  simp only [MAX_DIFF_CLASSIFICACAO_MPAA]

theorem jaccard_amended_eq (A B : Value) :
    similaridade_jaccard A B = jaccard_amended A B := by
  by_cases hA : jaccard_set A = ∅ <;> by_cases hB : jaccard_set B = ∅
  · rw [similaridade_jaccard_both_empty hA hB]
    simp [jaccard_amended, hA, hB]
  · rw [similaridade_jaccard_one_empty (Or.inl hA) (by tauto)]
    simp [jaccard_amended, hA, hB]
  · rw [similaridade_jaccard_one_empty (Or.inr hB) (by tauto)]
    simp [jaccard_amended, hA, hB]
  · rw [similaridade_jaccard_of_ne_empty hA hB]
    simp [jaccard_amended, hA, hB]

/-! ## Claim theorems -/

/-- C1 (counterexample): on the three-record base with query
`{generos: ["Sci-Fi"], ano_lancamento: 2000}`, weights `0.5/0.5` and year
bounds `[1920, 2025]`, record 3 does NOT score strictly higher than
record 1: both years are exactly 1 away from 2000, so both global
similarities are exactly `209/210`, refuting the claimed strict
inequality. -/
theorem claim_C1_counterexample :
    calcular_similaridade_global 2025 c1_query c1_rec3 c1_pesos =
      some (209/210) ∧
    calcular_similaridade_global 2025 c1_query c1_rec1 c1_pesos =
      some (209/210) ∧
    ¬((209:ℚ)/210 > 209/210) :=
  ⟨c1_global_rec3, c1_global_rec1, lt_irrefl _⟩

/-- C1 (amended): in the worked example, record 3's global similarity
EQUALS record 1's (both `209/210`; the years 1999 and 2001 are equidistant
from the query year 2000), and record 2's similarity `77/210` is strictly
the lowest of the three. -/
theorem claim_C1_amended :
    calcular_similaridade_global 2025 c1_query c1_rec3 c1_pesos =
      calcular_similaridade_global 2025 c1_query c1_rec1 c1_pesos ∧
    calcular_similaridade_global 2025 c1_query c1_rec1 c1_pesos =
      some (209/210) ∧
    calcular_similaridade_global 2025 c1_query c1_rec2 c1_pesos =
      some (77/210) ∧
    (77:ℚ)/210 < 209/210 := by
  refine ⟨?_, c1_global_rec1, c1_global_rec2, by norm_num⟩
  rw [c1_global_rec3, c1_global_rec1]

/-- C2: retrieval scores every record of the base exactly once (one result
per case, in base order, carrying that case's global similarity), and the
returned sequence is sorted non-increasingly by score, with results of
exactly equal score kept in the base's insertion order (stable
tie-break). -/
theorem claim_C2_retrieval (maxAno : ℚ) (novo : CaseRecord) (pesos : Pesos)
    (base : List CaseRecord) :
    ∃ rs out,
      pontuar_base maxAno novo pesos base = some rs ∧
      recuperar maxAno novo pesos base = some out ∧
      rs.map Prod.fst = base ∧
      (∀ pr ∈ rs,
        calcular_similaridade_global maxAno novo pr.1 pesos = some pr.2) ∧
      out.length = base.length ∧
      out.Perm rs ∧
      List.Pairwise (fun a b => b.2 ≤ a.2) out ∧
      (∀ q : ℚ, out.filter (fun pr => decide (pr.2 = q)) =
        rs.filter (fun pr => decide (pr.2 = q))) := by
  obtain ⟨rs, hrs, hmap, hmem⟩ := pontuar_base_spec maxAno novo pesos base
  refine ⟨rs, ordenar_casos rs, hrs, ?_, hmap, hmem, ?_, ?_, ?_, ?_⟩
  · rw [recuperar, hrs]
    rfl
  · have hlen : rs.length = base.length := by
      rw [← hmap, List.length_map]
    rw [← hlen]
    exact List.length_insertionSort score_desc rs
  · exact List.perm_insertionSort score_desc rs
  · exact List.sorted_insertionSort score_desc rs
  · intro q
    exact filter_ordenar_casos q rs

/-- C9: all four of `main.py`'s local similarity metrics — categorical,
numeric-normalized (for any fixed bounds), ordinal and set-Jaccard — and
`teste_aula.py`'s two metrics are symmetric in their two value arguments. -/
theorem claim_C9_symmetry :
    (∀ a b : Value,
      similaridade_categorica_simples a b = similaridade_categorica_simples b a) ∧
    (∀ a b min_val max_val : Value,
      similaridade_numerica_normalizada a b min_val max_val =
        similaridade_numerica_normalizada b a min_val max_val) ∧
    (∀ a b : Value,
      similaridade_ordinal_mpaa a b = similaridade_ordinal_mpaa b a) ∧
    (∀ a b : Value, similaridade_jaccard a b = similaridade_jaccard b a) ∧
    (∀ a b : Value, calcular_similaridade_categorica_simples a b =
      calcular_similaridade_categorica_simples b a) ∧
    (∀ (a b : Value) (md : ℚ), calcular_similaridade_numerica_simples a b md =
      calcular_similaridade_numerica_simples b a md) := by
  refine ⟨similaridade_categorica_simples_comm,
    similaridade_numerica_normalizada_comm, similaridade_ordinal_mpaa_comm,
    similaridade_jaccard_comm, ?_, ?_⟩
  · intro a b
    simp [calcular_similaridade_categorica_simples, pyEq_comm a b]
  · intro a b md
    unfold calcular_similaridade_numerica_simples
    rw [pyEq_comm b a]
    by_cases hz : md = 0
    · rw [if_pos hz, if_pos hz]
    · rw [if_neg hz, if_neg hz]
      cases a <;> cases b <;> simp [pySub]
      rw [abs_sub_comm]

/-- C10 (implicit): `calcular_similaridade_global` is symmetric in its two
case arguments: swapping query and case record never changes the score. -/
theorem claim_C10_global_symmetry (maxAno : ℚ) (q c : CaseRecord) (pesos : Pesos) :
    calcular_similaridade_global maxAno q c pesos =
      calcular_similaridade_global maxAno c q pesos := by
  unfold calcular_similaridade_global
  rw [Bool.or_comm, acumular_comm]

/-- C8: whenever the effective weight total accumulated over the attribute
blocks is `0.0` — i.e. no attribute was present in both query and case with
a positive weight and a configured metric — the aggregator returns exactly
`0.0`.  Both the `main.py` aggregator and the `teste_aula.py` variant are
covered. -/
theorem claim_C8_zero_weight :
    (∀ (maxAno : ℚ) (novo base : CaseRecord) (pesos : Pesos) (s : ℚ),
      acumular_similaridades maxAno novo base pesos = some (s, 0) →
      calcular_similaridade_global maxAno novo base pesos = some 0) ∧
    (∀ (caso_problema caso_base : PyDict)
      (atributos_info : List (String × AttrInfo))
      (pesos : List (String × ℚ)) (s : ℚ),
      acumular_ponderada caso_problema caso_base atributos_info pesos (0, 0) =
        some (s, 0) →
      similaridade_ponderada_global caso_problema caso_base atributos_info
        pesos = some 0) := by
  constructor
  · intro maxAno novo base pesos s h
    unfold calcular_similaridade_global
    by_cases he : (novo.isEmpty || base.isEmpty) = true
    · rw [if_pos he]
    · rw [if_neg he, h]
      simp
  · intro caso_problema caso_base atributos_info pesos s h
    unfold similaridade_ponderada_global
    rw [h]
    simp

/-- C8 witness: with claim C1's query against an entirely empty case record
every attribute block is skipped, the effective weight total is `0`, and
the aggregator indeed returns `0`. -/
theorem claim_C8_witness :
    acumular_similaridades 2025 c1_query {} c1_pesos = some (0, 0) ∧
    calcular_similaridade_global 2025 c1_query {} c1_pesos = some 0 := by
  have ha : acumular_similaridades 2025 c1_query {} c1_pesos = some (0, 0) := by
    norm_num [acumular_similaridades, c1_query, c1_pesos, numBlock, jaccBlock,
      ordBlock, getNum_vnum, getNum_none, jaccBlock_none_right,
      ordBlock_none_right, numBlock_none_right]
  exact ⟨ha, claim_C8_zero_weight.1 2025 c1_query {} c1_pesos 0 ha⟩

/-- C3: for every query, case record and weight vector with weights in
`[0, 1]`, the global similarity is a defined rational in `[0.0, 1.0]`.
For `main.py` this additionally assumes the environment-dependent
`MAX_ANO = datetime.now().year` is at least `MIN_ANO = 1920` (true in any
run of the program); for `teste_aula.py` it assumes the configured
`max_diff` spans are nonnegative (true of its example configuration) and
covers every terminating call. -/
theorem claim_C3_aggregate_range :
    (∀ (maxAno : ℚ) (novo base : CaseRecord) (pesos : Pesos),
      1920 ≤ maxAno → Pesos.mem01 pesos →
      ∃ r, calcular_similaridade_global maxAno novo base pesos = some r ∧
        0 ≤ r ∧ r ≤ 1) ∧
    (∀ (caso_problema caso_base : PyDict)
      (atributos_info : List (String × AttrInfo))
      (pesos : List (String × ℚ)),
      (∀ e ∈ pesos, 0 ≤ e.2 ∧ e.2 ≤ 1) →
      (∀ a ia q, List.lookup a atributos_info = some ia →
        ia.max_diff = some (some q) → 0 ≤ q) →
      ∀ r, similaridade_ponderada_global caso_problema caso_base
        atributos_info pesos = some r → 0 ≤ r ∧ r ≤ 1) := by
  constructor
  · intro maxAno novo base pesos hA _
    obtain ⟨r, hr, hb⟩ := calcular_similaridade_global_total maxAno novo base pesos
    exact ⟨r, hr, hb hA⟩
  · intro caso_problema caso_base atributos_info pesos hws hinfo r h
    exact similaridade_ponderada_global_mem hws hinfo r h

/-- C3 witness: the default weights lie in `[0, 1]` and the aggregate of
the worked example's query against its record 1 is a defined value in
`[0, 1]`. -/
theorem claim_C3_witness :
    (1920 : ℚ) ≤ 2025 ∧ Pesos.mem01 PESOS_PADRAO ∧
    (∃ r, calcular_similaridade_global 2025 c1_query c1_rec1 PESOS_PADRAO =
      some r ∧ 0 ≤ r ∧ r ≤ 1) := by
  refine ⟨by norm_num, by norm_num [Pesos.mem01, PESOS_PADRAO], ?_⟩
  exact claim_C3_aggregate_range.1 2025 c1_query c1_rec1 PESOS_PADRAO
    (by norm_num) (by norm_num [Pesos.mem01, PESOS_PADRAO])

/-- C4 (counterexample): not every local similarity metric in the source is
total.  `teste_aula.py`'s `calcular_similaridade_numerica_simples` raises a
`TypeError` (modelled by `Option.none`) already on the input
`(None, 5, max_diff = 10)`: with a nonzero `max_diff` it subtracts its
value arguments without any `None`/type guard. -/
theorem claim_C4_counterexample :
    calcular_similaridade_numerica_simples Value.vnone (Value.vnum 5) 10 =
      Option.none := by
  rw [calcular_similaridade_numerica_simples,
    if_neg (by norm_num : ¬((10:ℚ) = 0))]
  rfl

/-- C4 (amended): the four metric functions of `main.py` never raise — the
categorical, Jaccard and ordinal metrics are total over all `Value`s by
construction (their bodies contain no partial operation), and the numeric
metric is total whenever its bounds are numbers or `None` (the only shapes
the program passes); `teste_aula.py`'s simple numeric metric, by contrast,
is only defined when `max_diff == 0` or both value arguments are numeric. -/
theorem claim_C4_amended :
    (∀ v1 v2 b1 b2 : Value, numericOrNone b1 → numericOrNone b2 →
      ∃ r, similaridade_numerica_normalizada v1 v2 b1 b2 = some r) ∧
    (∀ (vp vb : Value) (md : ℚ), md = 0 ∨ (isNumeric vp ∧ isNumeric vb) →
      ∃ s, calcular_similaridade_numerica_simples vp vb md = some s) := by
  constructor
  · intro v1 v2 b1 b2 h1 h2
    by_cases h0 : v1 = Value.vnone ∨ v2 = Value.vnone
    · refine ⟨0, ?_⟩
      simp only [similaridade_numerica_normalizada]
      rw [if_pos h0]
    · rcases h1 with hb1 | ⟨m, rfl⟩
      · refine ⟨if pyEq v1 v2 then 1 else 0, ?_⟩
        simp only [similaridade_numerica_normalizada]
        rw [if_neg h0, if_pos (Or.inl hb1)]
      · rcases h2 with hb2 | ⟨M, rfl⟩
        · refine ⟨if pyEq v1 v2 then 1 else 0, ?_⟩
          simp only [similaridade_numerica_normalizada]
          rw [if_neg h0, if_pos (Or.inr hb2)]
        · obtain ⟨r, hr, _⟩ := similaridade_numerica_normalizada_vnum v1 v2 m M
          exact ⟨r, hr⟩
  · intro vp vb md h
    rcases h with hz | ⟨⟨p, rfl⟩, ⟨q, rfl⟩⟩
    · exact ⟨_, by rw [calcular_similaridade_numerica_simples, if_pos hz]⟩
    · by_cases hz : md = 0
      · exact ⟨_, by rw [calcular_similaridade_numerica_simples, if_pos hz]⟩
      · refine ⟨max 0 (1 - |p - q| / md), ?_⟩
        rw [calcular_similaridade_numerica_simples, if_neg hz]
        rfl

/-- C4 witness: the amended totality applied at concrete inputs — the
`main.py` numeric metric on a string and a list with numeric/`None`
bounds, and the `teste_aula.py` metric on two numbers. -/
theorem claim_C4_witness :
    numericOrNone (Value.vnum 1920) ∧ numericOrNone Value.vnone ∧
    (∃ r, similaridade_numerica_normalizada (Value.vstr "x") (Value.vlist [])
      (Value.vnum 1920) Value.vnone = some r) ∧
    (∃ s, calcular_similaridade_numerica_simples (Value.vnum 3)
      (Value.vnum 7) 0 = some s) := by
  refine ⟨Or.inr ⟨1920, rfl⟩, Or.inl rfl, ?_, ?_⟩
  · exact claim_C4_amended.1 (Value.vstr "x") (Value.vlist [])
      (Value.vnum 1920) Value.vnone (Or.inr ⟨1920, rfl⟩) (Or.inl rfl)
  · exact claim_C4_amended.2 (Value.vnum 3) (Value.vnum 7) 0 (Or.inl rfl)

/-- C5 (counterexample): it is NOT true that the numeric metric returns
`0.0` for every non-numeric argument under all bounds: with equal bounds
(`span == 0` is checked BEFORE the `isinstance` guard) two equal
non-numeric values yield `1.0`. -/
theorem claim_C5_counterexample :
    similaridade_numerica_normalizada (Value.vstr "x") (Value.vstr "x")
      (Value.vnum 5) (Value.vnum 5) = some 1 := by
  simp only [similaridade_numerica_normalizada, pySub]
  rw [if_neg (by rintro (h | h) <;> exact Value.noConfusion h),
    if_neg (by rintro (h | h) <;> exact Value.noConfusion h),
    Option.some_bind, if_pos (by norm_num : (5:ℚ) - 5 = 0)]
  simp [pyEq]

/-- C5 (amended): the numeric metric returns `0.0` when either value
argument is `None`, and also when a value is non-numeric PROVIDED both
bounds are numbers spanning a nonzero range; but when a bound is `None` or
the span is zero, the metric instead falls back to the equality comparison
`1.0 if a == b else 0.0`, even for non-numeric values. -/
theorem claim_C5_amended :
    (∀ v1 v2 b1 b2 : Value, v1 = Value.vnone ∨ v2 = Value.vnone →
      similaridade_numerica_normalizada v1 v2 b1 b2 = some 0) ∧
    (∀ (v1 v2 : Value) (m M : ℚ), v1 ≠ Value.vnone → v2 ≠ Value.vnone →
      ¬(isNumeric v1 ∧ isNumeric v2) → M - m ≠ 0 →
      similaridade_numerica_normalizada v1 v2 (Value.vnum m) (Value.vnum M) =
        some 0) ∧
    (∀ v1 v2 b1 b2 : Value, v1 ≠ Value.vnone → v2 ≠ Value.vnone →
      b1 = Value.vnone ∨ b2 = Value.vnone →
      similaridade_numerica_normalizada v1 v2 b1 b2 =
        some (if pyEq v1 v2 then 1 else 0)) ∧
    (∀ (v1 v2 : Value) (m M : ℚ), v1 ≠ Value.vnone → v2 ≠ Value.vnone →
      M - m = 0 →
      similaridade_numerica_normalizada v1 v2 (Value.vnum m) (Value.vnum M) =
        some (if pyEq v1 v2 then 1 else 0)) := by
  refine ⟨?_, ?_, ?_, ?_⟩
  · intro v1 v2 b1 b2 h
    simp only [similaridade_numerica_normalizada]
    rw [if_pos h]
  · intro v1 v2 m M h1 h2 hn hz
    simp only [similaridade_numerica_normalizada, pySub]
    rw [if_neg (by tauto),
      if_neg (by rintro (h | h) <;> exact Value.noConfusion h),
      Option.some_bind, if_neg hz]
    cases v1 <;> cases v2 <;> first
      | rfl
      | exact absurd rfl h1
      | exact absurd rfl h2
      | exact absurd ⟨⟨_, rfl⟩, ⟨_, rfl⟩⟩ hn
  · intro v1 v2 b1 b2 h1 h2 hb
    simp only [similaridade_numerica_normalizada]
    rw [if_neg (by tauto), if_pos hb]
  · intro v1 v2 m M h1 h2 hz
    simp only [similaridade_numerica_normalizada, pySub]
    rw [if_neg (by tauto),
      if_neg (by rintro (h | h) <;> exact Value.noConfusion h),
      Option.some_bind, if_pos hz]

/-- C5 witness: the amended behaviour at concrete inputs — `None` gives
`0.0`; a non-numeric pair under the year bounds gives `0.0`. -/
theorem claim_C5_witness :
    similaridade_numerica_normalizada Value.vnone (Value.vnum 7)
      (Value.vnum 1920) (Value.vnum 2025) = some 0 ∧
    similaridade_numerica_normalizada (Value.vstr "x") (Value.vstr "y")
      (Value.vnum 1920) (Value.vnum 2025) = some 0 := by
  constructor
  · exact claim_C5_amended.1 Value.vnone (Value.vnum 7)
      (Value.vnum 1920) (Value.vnum 2025) (Or.inl rfl)
  · exact claim_C5_amended.2.1 (Value.vstr "x") (Value.vstr "y") 1920 2025
      (fun h => Value.noConfusion h) (fun h => Value.noConfusion h)
      (by rintro ⟨⟨q1, hq⟩, _⟩; exact Value.noConfusion hq)
      (by norm_num)

/-- C6 (counterexample): the ordinal metric, as described by the claim
(normalisation replacing internal whitespace by a SINGLE hyphen; exact-match
fallback on the RAW strings), disagrees with the source:
`("PG  13", "G")` (two internal spaces) is `0.0` in the source (the
normalised form `"PG--13"` is unmapped) but `1 - 10/26` under the claim's
description; and `("None", None)` is `0.0` in the source (which compares
the SUBSTITUTED strings `"None"`/`"Unrated"`) but `1.0` under the claim's
raw-string comparison (`str(None) == "None"`). -/
theorem claim_C6_counterexample :
    similaridade_ordinal_mpaa (Value.vstr "PG  13") (Value.vstr "G") = 0 ∧
    ordinal_claim (Value.vstr "PG  13") (Value.vstr "G") = 1 - 10/26 ∧
    similaridade_ordinal_mpaa (Value.vstr "None") Value.vnone = 0 ∧
    ordinal_claim (Value.vstr "None") Value.vnone = 1 := by
  refine ⟨?_, ?_, ?_, ?_⟩
  · have h1 : ordinal_num (Value.vstr "PG  13") = Option.none := by decide
    have h2 : ordinal_num (Value.vstr "G") = some 7 := by decide
    simp only [similaridade_ordinal_mpaa, h1, h2]
    rw [if_neg (by decide)]
  · have h1 : ordinal_claim_resolve (Value.vstr "PG  13") = some 17 := by decide
    have h2 : ordinal_claim_resolve (Value.vstr "G") = some 7 := by decide
    simp only [ordinal_claim, h1, h2]
    rw [show ((CLASSIFICACOES_MPAA_POSSIVEIS.length - 1 : ℕ) : ℚ) = 26 from by
      norm_num [CLASSIFICACOES_MPAA_POSSIVEIS]]
    rw [show |((17:ℕ) : ℚ) - ((7:ℕ) : ℚ)| = 10 from by
      rw [show ((17:ℕ) : ℚ) = 17 from by norm_num,
        show ((7:ℕ) : ℚ) = 7 from by norm_num, abs_of_nonneg] <;> norm_num]
  · have h1 : ordinal_num (Value.vstr "None") = Option.none := by decide
    have h2 : ordinal_num Value.vnone = some 0 := by decide
    simp only [similaridade_ordinal_mpaa, h1, h2]
    rw [if_neg (by decide)]
  · have h1 : ordinal_claim_resolve (Value.vstr "None") = Option.none := by
      decide
    have h2 : ordinal_claim_resolve Value.vnone = some 0 := by decide
    simp only [ordinal_claim, h1, h2]
    rw [if_pos (by decide)]

/-- C6 (amended): the ordinal metric maps each value to its index in the
rating list, substituting `"Unrated"` for `None`/blank input, additionally
trying the normalised form obtained by upper-casing and replacing EACH
space character with a hyphen when the substituted string is not found; if
either value still resolves to no index, it returns `1.0` iff the two
SUBSTITUTED strings are equal, else `0.0`; otherwise
`1 - |idx(a) - idx(b)| / (len(orderedValues) - 1)`. -/
theorem claim_C6_amended (v1 v2 : Value) :
    similaridade_ordinal_mpaa v1 v2 = ordinal_amended v1 v2 :=
  ordinal_amended_eq v1 v2

/-- C7 (counterexample): the source's Jaccard metric does NOT trim its
items: `[" a"]` versus `["a"]` yields `0.0` in the source (sets
`{" a"}` and `{"a"}` are disjoint) but `1.0` under the claim's description
(both normalise to the trimmed set `{"a"}`). -/
theorem claim_C7_counterexample :
    similaridade_jaccard (Value.vlist [Item.str " a"])
      (Value.vlist [Item.str "a"]) = 0 ∧
    jaccard_claim (Value.vlist [Item.str " a"])
      (Value.vlist [Item.str "a"]) = 1 := by
  constructor
  · rw [similaridade_jaccard_of_ne_empty (by decide) (by decide)]
    rw [show ((jaccard_set (Value.vlist [Item.str " a"]) ∩
        jaccard_set (Value.vlist [Item.str "a"])).card) = 0 from by decide]
    rw [show ((jaccard_set (Value.vlist [Item.str " a"]) ∪
        jaccard_set (Value.vlist [Item.str "a"])).card) = 2 from by decide]
    norm_num
  · simp only [jaccard_claim]
    rw [if_neg (by decide), if_neg (by decide)]
    rw [show ((jaccard_claim_set (Value.vlist [Item.str " a"]) ∩
        jaccard_claim_set (Value.vlist [Item.str "a"])).card) = 1 from by
      decide]
    rw [show ((jaccard_claim_set (Value.vlist [Item.str " a"]) ∪
        jaccard_claim_set (Value.vlist [Item.str "a"])).card) = 1 from by
      decide]
    norm_num

/-- C7 (amended): the set-Jaccard metric normalises each input to the set
of its UNtrimmed items after dropping falsy / whitespace-only entries
(duplicates removed, a bare scalar treated as a one-element list), then
returns `1.0` if both sets are empty, `0.0` if exactly one is empty, and
`|A ∩ B| / |A ∪ B|` otherwise; the claim's three worked examples hold. -/
theorem claim_C7_amended :
    (∀ A B : Value, similaridade_jaccard A B = jaccard_amended A B) ∧
    similaridade_jaccard (Value.vlist []) (Value.vlist []) = 1 ∧
    similaridade_jaccard (Value.vlist [Item.str "x"]) (Value.vlist []) = 0 ∧
    similaridade_jaccard (Value.vlist [Item.str "a", Item.str "b"])
      (Value.vlist [Item.str "b", Item.str "c"]) = 1/3 := by
  refine ⟨jaccard_amended_eq, by decide, by decide, ?_⟩
  rw [similaridade_jaccard_of_ne_empty (by decide) (by decide)]
  rw [show ((jaccard_set (Value.vlist [Item.str "a", Item.str "b"]) ∩
      jaccard_set (Value.vlist [Item.str "b", Item.str "c"])).card) = 1 from by
    decide]
  rw [show ((jaccard_set (Value.vlist [Item.str "a", Item.str "b"]) ∪
      jaccard_set (Value.vlist [Item.str "b", Item.str "c"])).card) = 3 from by
    decide]
  norm_num
